import Mathlib

/-!
Verification of the simulation core of the submarine-welding simulator.

The development shallowly embeds four components of the source:
 - `SubmarinePhysics` (src/physics/SubmarinePhysics.ts) over `ℝ`;
 - `WeldingArmPhysics` (src/physics/WeldingArmPhysics.ts) over `ℝ`;
 - the weld-quality analyzer (`analyzeWeldQuality` and helpers) over `ℚ`;
 - `ScoringSystem` (src/systems/ScoringSystem.ts) over `ℚ`,
together with the constants of src/core/Constants (re-exported by
src/core/Engine.ts).  JavaScript numbers are modelled as exact rationals or
reals; `Math.round` is Lean's `round` (both are `⌊x + 1/2⌋`), and
`THREE.MathUtils.clamp x a b = Math.max(a, Math.min(b, x))`.
-/

namespace SubWeld

/-! ## Constants (src/core/Constants, re-exported by Engine.ts) -/

def WELD_IDEAL_TRAVEL_SPEED : ℚ := 0.15

def WELD_SPEED_TOLERANCE : ℚ := 0.05

def WELD_IDEAL_WORK_ANGLE : ℚ := 90

def WELD_WORK_ANGLE_TOLERANCE : ℚ := 15

def WELD_IDEAL_TRAVEL_ANGLE : ℚ := 15

def WELD_TRAVEL_ANGLE_TOLERANCE : ℚ := 10

def WELD_IDEAL_ARC_LENGTH : ℚ := 3.0

def WELD_ARC_LENGTH_TOLERANCE : ℚ := 1.0

def SCORE_BASE_POINTS : ℚ := 100

def SCORE_MAX_MULTIPLIER : ℚ := 5.0

def SCORE_MULTIPLIER_INCREMENT : ℚ := 0.25

def SCORE_MULTIPLIER_DECAY : ℚ := 0.1

/-- `SCORE_RATING_THRESHOLDS` record from Constants. -/
structure RatingThresholds where
  S : ℚ
  A : ℚ
  B : ℚ
  C : ℚ
  D : ℚ
  F : ℚ

def SCORE_RATING_THRESHOLDS : RatingThresholds :=
  { S := 95, A := 85, B := 70, C := 55, D := 40, F := 0 }

/-! ## Weld-quality analyzer (WeldQualityAnalyzer, bundled in MissionLoader.ts) -/

/-- The letter ratings `'S' | 'A' | 'B' | 'C' | 'D' | 'F'`. -/
inductive Rating where
  | S
  | A
  | B
  | C
  | D
  | F
  deriving DecidableEq, Repr

/-- Numeric quality order on ratings, `F` worst and `S` best (used to express
monotonicity of the threshold table). -/
def ratingRank : Rating → ℕ
  | .F => 0
  | .D => 1
  | .C => 2
  | .B => 3
  | .A => 4
  | .S => 5

/-- Defect categories of the analyzer. -/
inductive DefectType where
  | porosity
  | undercut
  | overlap
  | incomplete_fusion
  | spatter
  deriving DecidableEq, Repr

inductive DefectSeverity where
  | minor
  | moderate
  | severe
  deriving DecidableEq, Repr

structure Defect where
  type : DefectType
  severity : DefectSeverity
  position : ℚ
  cause : String
  deriving DecidableEq, Repr

structure Vec3Q where
  x : ℚ
  y : ℚ
  z : ℚ
  deriving DecidableEq, Repr

/-- `WeldSample` record (position, travelSpeed, workAngle, travelAngle,
arcLength, distanceToTarget, timestamp). -/
structure WeldSample where
  position : Vec3Q
  travelSpeed : ℚ
  workAngle : ℚ
  travelAngle : ℚ
  arcLength : ℚ
  distanceToTarget : ℚ
  timestamp : ℚ
  deriving DecidableEq, Repr

/-- `WeldQualityResult`: overall score, rating, five sub-scores, feedback and
defects.  The scores are `Math.round`ed integers in the source. -/
structure WeldQualityResult where
  overallScore : ℤ
  rating : Rating
  speedScore : ℤ
  angleScore : ℤ
  arcScore : ℤ
  accuracyScore : ℤ
  consistencyScore : ℤ
  feedback : List String
  defects : List Defect
  deriving DecidableEq, Repr

/-- `average(arr)`: `arr.reduce((a,b) => a+b, 0) / arr.length`, `0` on `[]`. -/
def average (arr : List ℚ) : ℚ :=
  if arr.length = 0 then 0 else arr.sum / arr.length

/-- `variance(arr)`: mean squared deviation from `average`, `0` on `[]`. -/
def variance (arr : List ℚ) : ℚ :=
  if arr.length = 0 then 0
  else (arr.map (fun val => (val - average arr) ^ 2)).sum / arr.length

/-- `calculateSpeedScore` -/
def calculateSpeedScore (samples : List WeldSample) : ℚ :=
  let speeds := samples.map (fun s => s.travelSpeed)
  let avgSpeed := average speeds
  let speedDeviation := |avgSpeed - WELD_IDEAL_TRAVEL_SPEED|
  let speedScore := max 0 (100 - (speedDeviation / WELD_SPEED_TOLERANCE) * 50)
  let speedVariance := variance speeds
  let variancePenalty := min 20 (speedVariance * 1000)
  max 0 (speedScore - variancePenalty)

/-- `calculateAngleScore` -/
def calculateAngleScore (samples : List WeldSample) : ℚ :=
  let workAngles := samples.map (fun s => s.workAngle)
  let travelAngles := samples.map (fun s => s.travelAngle)
  let avgWorkAngle := average workAngles
  let workAngleDeviation := |avgWorkAngle - WELD_IDEAL_WORK_ANGLE|
  let workAngleScore := max 0 (100 - (workAngleDeviation / WELD_WORK_ANGLE_TOLERANCE) * 50)
  let avgTravelAngle := average travelAngles
  let travelAngleDeviation := |avgTravelAngle - WELD_IDEAL_TRAVEL_ANGLE|
  let travelAngleScore := max 0 (100 - (travelAngleDeviation / WELD_TRAVEL_ANGLE_TOLERANCE) * 50)
  workAngleScore * 0.6 + travelAngleScore * 0.4

/-- `calculateArcScore` -/
def calculateArcScore (samples : List WeldSample) : ℚ :=
  let arcLengths := samples.map (fun s => s.arcLength)
  let avgArcLength := average arcLengths
  let arcDeviation := |avgArcLength - WELD_IDEAL_ARC_LENGTH|
  let arcScore := max 0 (100 - (arcDeviation / WELD_ARC_LENGTH_TOLERANCE) * 50)
  let arcVariance := variance arcLengths
  let variancePenalty := min 25 (arcVariance * 50)
  max 0 (arcScore - variancePenalty)

/-- `calculateAccuracyScore` -/
def calculateAccuracyScore (samples : List WeldSample) : ℚ :=
  let distances := samples.map (fun s => s.distanceToTarget)
  let avgDistance := average distances
  max 0 (100 - avgDistance * 10)

/-- `calculateConsistencyScore` -/
def calculateConsistencyScore (samples : List WeldSample) : ℚ :=
  let speedVariance := variance (samples.map (fun s => s.travelSpeed))
  let arcVariance := variance (samples.map (fun s => s.arcLength))
  let distanceVariance := variance (samples.map (fun s => s.distanceToTarget))
  let speedConsistency := max 0 (100 - speedVariance * 2000)
  let arcConsistency := max 0 (100 - arcVariance * 100)
  let distanceConsistency := max 0 (100 - distanceVariance * 50)
  (speedConsistency + arcConsistency + distanceConsistency) / 3

/-- The dedup lookup `defects.find(d => d.type === t && |d.position - p| < 0.1)`
reduced to its boolean result. -/
def hasNearbyDefect (defects : List Defect) (t : DefectType) (p : ℚ) : Bool :=
  defects.any (fun d => d.type == t && decide (|d.position - p| < 0.1))

/-- Defect checks of one loop iteration of `detectDefects` (sample `s` at
normalized position `p`), appended in source order onto the accumulator. -/
def detectDefectsStep (acc : List Defect) (s : WeldSample) (p : ℚ) : List Defect :=
  let acc :=
    if s.travelSpeed > WELD_IDEAL_TRAVEL_SPEED * 1.5 then
      let severity : DefectSeverity :=
        if s.travelSpeed > WELD_IDEAL_TRAVEL_SPEED * 2 then .severe else .moderate
      if hasNearbyDefect acc .porosity p then acc
      else acc ++ [⟨.porosity, severity, p, "Travel speed too fast"⟩]
    else acc
  let acc :=
    if |s.workAngle - WELD_IDEAL_WORK_ANGLE| > WELD_WORK_ANGLE_TOLERANCE * 2 then
      let severity : DefectSeverity :=
        if |s.workAngle - WELD_IDEAL_WORK_ANGLE| > WELD_WORK_ANGLE_TOLERANCE * 3 then .severe
        else .minor
      if hasNearbyDefect acc .undercut p then acc
      else acc ++ [⟨.undercut, severity, p, "Work angle too steep"⟩]
    else acc
  let acc :=
    if s.travelSpeed < WELD_IDEAL_TRAVEL_SPEED * 0.5 then
      let severity : DefectSeverity :=
        if s.travelSpeed < WELD_IDEAL_TRAVEL_SPEED * 0.3 then .severe else .moderate
      if hasNearbyDefect acc .overlap p then acc
      else acc ++ [⟨.overlap, severity, p, "Travel speed too slow"⟩]
    else acc
  let acc :=
    if s.arcLength > WELD_IDEAL_ARC_LENGTH + WELD_ARC_LENGTH_TOLERANCE * 2 then
      let severity : DefectSeverity :=
        if s.arcLength > WELD_IDEAL_ARC_LENGTH + WELD_ARC_LENGTH_TOLERANCE * 3 then .severe
        else .moderate
      if hasNearbyDefect acc .incomplete_fusion p then acc
      else acc ++ [⟨.incomplete_fusion, severity, p, "Arc length too long"⟩]
    else acc
  let acc :=
    if s.arcLength < WELD_IDEAL_ARC_LENGTH - WELD_ARC_LENGTH_TOLERANCE * 1.5 then
      if hasNearbyDefect acc .spatter p then acc
      else acc ++ [⟨.spatter, .minor, p, "Arc length too short"⟩]
    else acc
  acc

/-- `detectDefects(samples)`: iterates all samples in index order, each at
normalized position `i / samples.length`. -/
def detectDefects (samples : List WeldSample) : List Defect :=
  samples.enum.foldl
    (fun acc is => detectDefectsStep acc is.2 ((is.1 : ℚ) / samples.length)) []

/-- `getRating(score)`: threshold table lookup via `>=` comparisons. -/
def getRating (score : ℚ) : Rating :=
  if score ≥ SCORE_RATING_THRESHOLDS.S then .S
  else if score ≥ SCORE_RATING_THRESHOLDS.A then .A
  else if score ≥ SCORE_RATING_THRESHOLDS.B then .B
  else if score ≥ SCORE_RATING_THRESHOLDS.C then .C
  else if score ≥ SCORE_RATING_THRESHOLDS.D then .D
  else .F

/-- `generateFeedback` -/
def generateFeedback (speedScore angleScore arcScore accuracyScore consistencyScore : ℚ)
    (defects : List Defect) : List String :=
  let feedback : List String := []
  let feedback := feedback ++
    (if speedScore ≥ 90 then ["Excellent travel speed control"]
     else if speedScore < 50 then ["Work on maintaining consistent travel speed"]
     else [])
  let feedback := feedback ++
    (if angleScore ≥ 90 then ["Great torch angle technique"]
     else if angleScore < 50 then ["Keep the torch perpendicular to the work surface"]
     else [])
  let feedback := feedback ++
    (if arcScore ≥ 90 then ["Excellent arc length control"]
     else if arcScore < 50 then ["Maintain a steady arc length of about 3mm"]
     else [])
  let feedback := feedback ++
    (if accuracyScore ≥ 90 then ["Precise weld placement"]
     else if accuracyScore < 50 then ["Focus on following the weld line more closely"]
     else [])
  let feedback := feedback ++
    (if consistencyScore ≥ 90 then ["Very consistent technique throughout"]
     else if consistencyScore < 50 then ["Try to maintain a more even rhythm"]
     else [])
  let feedback := feedback ++
    (if defects.any (fun d => d.type == .porosity) then ["Slow down to reduce porosity"] else [])
  let feedback := feedback ++
    (if defects.any (fun d => d.type == .undercut) then ["Adjust torch angle to prevent undercut"]
     else [])
  let feedback := feedback ++
    (if defects.any (fun d => d.type == .overlap) then ["Increase travel speed to avoid overlap"]
     else [])
  let feedback := feedback ++
    (if defects.any (fun d => d.type == .incomplete_fusion) then
      ["Shorten arc length for better fusion"]
     else [])
  feedback

/-- The fixed result returned by `analyzeWeldQuality` when fewer than two
samples were recorded. -/
def shortWeldResult : WeldQualityResult :=
  { overallScore := 0
    rating := .F
    speedScore := 0
    angleScore := 0
    arcScore := 0
    accuracyScore := 0
    consistencyScore := 0
    feedback := ["Weld too short - insufficient samples collected"]
    defects := [] }

/-- `analyzeWeldQuality(samples)` -/
def analyzeWeldQuality (samples : List WeldSample) : WeldQualityResult :=
  if samples.length < 2 then shortWeldResult
  else
    let speedScore := calculateSpeedScore samples
    let angleScore := calculateAngleScore samples
    let arcScore := calculateArcScore samples
    let accuracyScore := calculateAccuracyScore samples
    let consistencyScore := calculateConsistencyScore samples
    let defects := detectDefects samples
    let overallScore :=
      speedScore * 0.2 + angleScore * 0.25 + arcScore * 0.2 +
        accuracyScore * 0.2 + consistencyScore * 0.15
    let defectPenalty := defects.foldl
      (fun penalty defect =>
        match defect.severity with
        | .severe => penalty + 15
        | .moderate => penalty + 8
        | .minor => penalty + 3) 0
    let overallScore := max 0 (overallScore - defectPenalty)
    let rating := getRating overallScore
    let feedback :=
      generateFeedback speedScore angleScore arcScore accuracyScore consistencyScore defects
    { overallScore := round overallScore
      rating := rating
      speedScore := round speedScore
      angleScore := round angleScore
      arcScore := round arcScore
      accuracyScore := round accuracyScore
      consistencyScore := round consistencyScore
      feedback := feedback
      defects := defects }

/-! ## WeldingSystem (src/systems/WeldingSystem.ts)

The system's private mutable fields become a state record; event emission and
wall-clock reads (`performance.now`, used only for event payloads) have no
effect on the returned result or the retained state and are omitted. -/

structure WeldingState where
  welding : Bool
  samples : List WeldSample
  recentArcLengths : List ℚ
  arcStability : ℚ
  deriving DecidableEq, Repr

/-- Fresh `WeldingSystem` instance. -/
def weldingInit : WeldingState :=
  { welding := false, samples := [], recentArcLengths := [], arcStability := 0 }

/-- The default failed result `finishWeld` returns when no weld is in
progress. -/
def noWeldResult : WeldQualityResult :=
  { overallScore := 0
    rating := .F
    speedScore := 0
    angleScore := 0
    arcScore := 0
    accuracyScore := 0
    consistencyScore := 0
    feedback := ["No weld was in progress"]
    defects := [] }

/-- `finishWeld()`: result together with the successor state. -/
def finishWeld (st : WeldingState) : WeldQualityResult × WeldingState :=
  if st.welding = false then (noWeldResult, st)
  else
    let result := analyzeWeldQuality st.samples
    (result, { st with welding := false, samples := [], recentArcLengths := [] })

/-- `startWeld()`: if already welding the previous weld is finished first
(result discarded), then the buffers are cleared. -/
def startWeld (st : WeldingState) : WeldingState :=
  let st := if st.welding then (finishWeld st).2 else st
  { st with welding := true, samples := [], recentArcLengths := [], arcStability := 0 }

/-- `addSample(...)`: no-op unless welding; the sample's timestamp comes from
the external clock and is passed in explicitly. -/
def addSampleAt (st : WeldingState) (position : Vec3Q)
    (travelSpeed workAngle travelAngle arcLength distanceToTarget timestamp : ℚ) :
    WeldingState :=
  if st.welding = false then st
  else
    let sample : WeldSample :=
      ⟨position, travelSpeed, workAngle, travelAngle, arcLength, distanceToTarget, timestamp⟩
    { st with samples := st.samples ++ [sample] }

/-! ## ScoringSystem (src/systems/ScoringSystem.ts)

`gameState.dispatch` and event emission mutate state outside this component
and are omitted; the component's own fields are `multiplier` and
`comboActive`. -/

structure ScoreState where
  multiplier : ℚ
  comboActive : Bool
  deriving DecidableEq, Repr

/-- Fresh `ScoringSystem` instance. -/
def scoreInit : ScoreState := { multiplier := 1, comboActive := false }

/-- `getRatingBonus(rating)` -/
def getRatingBonus : Rating → ℚ
  | .S => 2.0
  | .A => 1.5
  | .B => 1.2
  | .C => 1.0
  | .D => 0.8
  | .F => 0.5

/-- `updateMultiplier(result)` (only the rating is read). -/
def updateMultiplier (st : ScoreState) (rating : Rating) : ScoreState :=
  if rating = .S ∨ rating = .A ∨ rating = .B then
    let increase := SCORE_MULTIPLIER_INCREMENT
    let m :=
      if rating = .S then st.multiplier + increase * 2
      else if rating = .A then st.multiplier + increase * 1.5
      else st.multiplier + increase
    { st with multiplier := min m SCORE_MAX_MULTIPLIER }
  else if rating = .D ∨ rating = .F then
    { st with multiplier := max 1 (st.multiplier - SCORE_MULTIPLIER_INCREMENT) }
  else st

/-- `processWeld(result)`: awarded points (dispatched to the game state in the
source) together with the successor state. -/
def processWeld (st : ScoreState) (result : WeldQualityResult) : ℤ × ScoreState :=
  let qualityMultiplier := (result.overallScore : ℚ) / 100
  let basePoints := SCORE_BASE_POINTS * qualityMultiplier
  let ratingBonus := getRatingBonus result.rating
  let pointsBeforeMultiplier := basePoints * ratingBonus
  let finalPoints := round (pointsBeforeMultiplier * st.multiplier)
  let st := updateMultiplier st result.rating
  (finalPoints, { st with comboActive := true })

/-- `update(delta)`: combo decay. -/
def scoreUpdate (st : ScoreState) (delta : ℚ) : ScoreState :=
  if st.comboActive = false then st
  else
    let m := st.multiplier - SCORE_MULTIPLIER_DECAY * delta
    if m < 1 then { st with multiplier := 1, comboActive := false }
    else { st with multiplier := m }

/-- `reset()` -/
def scoreReset (_st : ScoreState) : ScoreState :=
  { multiplier := 1, comboActive := false }

/-- One externally invokable `ScoringSystem` call. -/
inductive ScoreOp where
  | processWeld (result : WeldQualityResult)
  | update (delta : ℚ)
  | reset
  deriving Repr

/-- Apply one call (discarding the points `processWeld` reports). -/
def scoreStep (st : ScoreState) : ScoreOp → ScoreState
  | .processWeld result => (processWeld st result).2
  | .update delta => scoreUpdate st delta
  | .reset => scoreReset st

/-- Run a call sequence from a state. -/
def scoreRun (st : ScoreState) (ops : List ScoreOp) : ScoreState :=
  ops.foldl scoreStep st

/-- The `update` deltas a frame clock hands the system are nonnegative. -/
def scoreOpOk : ScoreOp → Prop
  | .update delta => 0 ≤ delta
  | _ => True

/-! ## Real-valued vector and quaternion operations (three.js subset)

The physics classes use `Math.sqrt`, `Math.exp` and trigonometry, so they are
embedded over `ℝ` (exact real arithmetic); these definitions follow the
three.js implementations used by the source. -/

noncomputable section

structure Vec3 where
  x : ℝ
  y : ℝ
  z : ℝ

def Vec3.add (a b : Vec3) : Vec3 := ⟨a.x + b.x, a.y + b.y, a.z + b.z⟩

def Vec3.smul (c : ℝ) (v : Vec3) : Vec3 := ⟨c * v.x, c * v.y, c * v.z⟩

def Vec3.normSq (v : Vec3) : ℝ := v.x ^ 2 + v.y ^ 2 + v.z ^ 2

/-- `THREE.Vector3.length()` -/
def Vec3.len (v : Vec3) : ℝ := Real.sqrt v.normSq

/-- `THREE.Vector3.normalize()`: `divideScalar(length || 1)`. -/
def Vec3.normalize (v : Vec3) : Vec3 :=
  if v.len = 0 then v else Vec3.smul (1 / v.len) v

structure Quat where
  x : ℝ
  y : ℝ
  z : ℝ
  w : ℝ

def Quat.identityQ : Quat := ⟨0, 0, 0, 1⟩

/-- `THREE.Quaternion.multiply` (Hamilton product `a * b`). -/
def Quat.mul (a b : Quat) : Quat :=
  ⟨a.x * b.w + a.w * b.x + a.y * b.z - a.z * b.y,
   a.y * b.w + a.w * b.y + a.z * b.x - a.x * b.z,
   a.z * b.w + a.w * b.z + a.x * b.y - a.y * b.x,
   a.w * b.w - a.x * b.x - a.y * b.y - a.z * b.z⟩

def Quat.lenQ (q : Quat) : ℝ := Real.sqrt (q.x ^ 2 + q.y ^ 2 + q.z ^ 2 + q.w ^ 2)

/-- `THREE.Quaternion.normalize()`: identity when the length is zero. -/
def Quat.normalizeQ (q : Quat) : Quat :=
  if q.lenQ = 0 then ⟨0, 0, 0, 1⟩
  else ⟨q.x / q.lenQ, q.y / q.lenQ, q.z / q.lenQ, q.w / q.lenQ⟩

/-- `THREE.Quaternion.setFromEuler` for rotation order `'YXZ'`. -/
def quatFromEulerYXZ (ex ey ez : ℝ) : Quat :=
  let c1 := Real.cos (ex / 2)
  let c2 := Real.cos (ey / 2)
  let c3 := Real.cos (ez / 2)
  let s1 := Real.sin (ex / 2)
  let s2 := Real.sin (ey / 2)
  let s3 := Real.sin (ez / 2)
  ⟨s1 * c2 * c3 + c1 * s2 * s3,
   c1 * s2 * c3 - s1 * c2 * s3,
   c1 * c2 * s3 - s1 * s2 * c3,
   c1 * c2 * c3 + s1 * s2 * s3⟩

/-- `THREE.Vector3.applyQuaternion` -/
def Vec3.applyQuaternion (v : Vec3) (q : Quat) : Vec3 :=
  let tx := 2 * (q.y * v.z - q.z * v.y)
  let ty := 2 * (q.z * v.x - q.x * v.z)
  let tz := 2 * (q.x * v.y - q.y * v.x)
  ⟨v.x + q.w * tx + q.y * tz - q.z * ty,
   v.y + q.w * ty + q.z * tx - q.x * tz,
   v.z + q.w * tz + q.x * ty - q.y * tx⟩

/-- `THREE.MathUtils.clamp(value, min, max) = Math.max(min, Math.min(max, value))`. -/
def clampR (value lo hi : ℝ) : ℝ := max lo (min hi value)

/-! ## Submarine physics constants (src/core/Constants) -/

def SUBMARINE_MASS : ℝ := 8000

def WATER_DENSITY : ℝ := 1025

def GRAVITY : ℝ := 9.81

def BUOYANCY_FORCE : ℝ := 1.02

def DRAG_COEFFICIENT : ℝ := 2.5

def ANGULAR_DRAG : ℝ := 3.0

def MAX_SPEED : ℝ := 4.0

def MAX_ROTATION_SPEED : ℝ := 0.3

def MAX_DEPTH : ℝ := 200

def THRUSTER_FORCE : ℝ := 20000

def VERTICAL_THRUSTER_FORCE : ℝ := 16000

/-- `SUBMARINE_VOLUME` (SubmarinePhysics.ts). -/
def SUBMARINE_VOLUME : ℝ := SUBMARINE_MASS / (WATER_DENSITY * BUOYANCY_FORCE)

/-! ## SubmarinePhysics (src/physics/SubmarinePhysics.ts)

State record of the class fields.  The class also stores a `THREE.Euler`
`rotation`; `update` recomputes `quaternion` from it on entry and writes it
back from `quaternion` on exit, and `setRotation` keeps the two in sync, so
the Euler field is a derived mirror of the same orientation and the model
keeps the quaternion as the orientation state. -/

structure SubState where
  position : Vec3
  quaternion : Quat
  linearVelocity : Vec3
  angularVelocity : Vec3
  thrustInput : Vec3
  rollInput : ℝ

/-- Fresh `SubmarinePhysics` instance (no initial position argument). -/
def subInit : SubState :=
  { position := ⟨0, -10, 0⟩
    quaternion := Quat.identityQ
    linearVelocity := ⟨0, 0, 0⟩
    angularVelocity := ⟨0, 0, 0⟩
    thrustInput := ⟨0, 0, 0⟩
    rollInput := 0 }

/-- `applyThrust(forward, strafe, vertical, roll)`:
`thrustInput.set(strafe, vertical, -forward)` (z is forward in three.js). -/
def applyThrust (st : SubState) (forward strafe vertical roll : ℝ) : SubState :=
  { st with thrustInput := ⟨strafe, vertical, -forward⟩, rollInput := roll }

/-- `calculateForces(dt)` -/
def calculateForces (st : SubState) (dt : ℝ) : SubState :=
  let buoyancyMagnitude := WATER_DENSITY * SUBMARINE_VOLUME * GRAVITY * BUOYANCY_FORCE
  let gravityForce := SUBMARINE_MASS * GRAVITY
  let netBuoyancy := buoyancyMagnitude - gravityForce
  let force : Vec3 :=
    ⟨st.thrustInput.x * THRUSTER_FORCE,
     st.thrustInput.y * VERTICAL_THRUSTER_FORCE,
     st.thrustInput.z * THRUSTER_FORCE⟩
  let force := force.applyQuaternion st.quaternion
  let speed := st.linearVelocity.len
  let force :=
    if speed > 0.001 then
      force.add (Vec3.smul (-(DRAG_COEFFICIENT * speed * speed)) st.linearVelocity.normalize)
    else force
  let force : Vec3 := { force with y := force.y + netBuoyancy }
  let accel := Vec3.smul (1 / SUBMARINE_MASS) force
  let linearVelocity := st.linearVelocity.add (Vec3.smul dt accel)
  let yawTorque := -st.thrustInput.x * 0.5
  let pitchTorque := st.thrustInput.y * 0.3
  let rollTorque := st.rollInput * MAX_ROTATION_SPEED
  let av : Vec3 :=
    ⟨st.angularVelocity.x + pitchTorque * dt,
     st.angularVelocity.y + yawTorque * dt,
     st.angularVelocity.z + rollTorque * dt⟩
  let av := Vec3.smul (1 - ANGULAR_DRAG * dt) av
  { st with linearVelocity := linearVelocity, angularVelocity := av }

/-- `integrateVelocity(dt)`: speed clamp and per-component angular clamp. -/
def integrateVelocity (st : SubState) : SubState :=
  let speed := st.linearVelocity.len
  let lv :=
    if speed > MAX_SPEED then Vec3.smul (MAX_SPEED / speed) st.linearVelocity
    else st.linearVelocity
  let av : Vec3 :=
    ⟨clampR st.angularVelocity.x (-MAX_ROTATION_SPEED) MAX_ROTATION_SPEED,
     clampR st.angularVelocity.y (-MAX_ROTATION_SPEED) MAX_ROTATION_SPEED,
     clampR st.angularVelocity.z (-MAX_ROTATION_SPEED) MAX_ROTATION_SPEED⟩
  { st with linearVelocity := lv, angularVelocity := av }

/-- `integratePosition(dt)`: position step, depth boundary handling and
orientation integration. -/
def integratePosition (st : SubState) (dt : ℝ) : SubState :=
  let pos := st.position.add (Vec3.smul dt st.linearVelocity)
  let lv := st.linearVelocity
  let pl :=
    if pos.y > 0 then
      (({ pos with y := 0 } : Vec3), ({ lv with y := min 0 lv.y } : Vec3))
    else (pos, lv)
  let pos := pl.1
  let lv := pl.2
  let pl :=
    if pos.y < -MAX_DEPTH then
      (({ pos with y := -MAX_DEPTH } : Vec3), ({ lv with y := max 0 lv.y } : Vec3))
    else (pos, lv)
  let pos := pl.1
  let lv := pl.2
  let angularDelta := Vec3.smul dt st.angularVelocity
  let deltaQuat := quatFromEulerYXZ angularDelta.x angularDelta.y angularDelta.z
  let q := (st.quaternion.mul deltaQuat).normalizeQ
  { st with position := pos, linearVelocity := lv, quaternion := q }

/-- `update(delta)`: clamp `dt`, forces, velocity and position integration,
then clear the thrust command. -/
def subUpdate (st : SubState) (delta : ℝ) : SubState :=
  let dt := min delta 0.1
  let st := calculateForces st dt
  let st := integrateVelocity st
  let st := integratePosition st dt
  { st with thrustInput := ⟨0, 0, 0⟩, rollInput := 0 }

/-- `getSpeed()` -/
def getSpeed (st : SubState) : ℝ := st.linearVelocity.len

/-- One externally invokable `SubmarinePhysics` call. -/
inductive SubOp where
  | applyThrust (forward strafe vertical roll : ℝ)
  | update (delta : ℝ)

def subStep (st : SubState) : SubOp → SubState
  | .applyThrust f s v r => applyThrust st f s v r
  | .update delta => subUpdate st delta

def subRun (st : SubState) (ops : List SubOp) : SubState :=
  ops.foldl subStep st

/-- All `update` calls of a sequence carry a positive time step. -/
def subOpDtPos : SubOp → Prop
  | .update delta => 0 < delta
  | _ => True

/-- The submarine velocity invariant: linear speed at most `MAX_SPEED` and
every angular velocity component inside
`[-MAX_ROTATION_SPEED, MAX_ROTATION_SPEED]`. -/
def subVelInvariant (st : SubState) : Prop :=
  getSpeed st ≤ MAX_SPEED ∧
  |st.angularVelocity.x| ≤ MAX_ROTATION_SPEED ∧
  |st.angularVelocity.y| ≤ MAX_ROTATION_SPEED ∧
  |st.angularVelocity.z| ≤ MAX_ROTATION_SPEED

/-! ## Welding arm constants (src/core/Constants) -/

def ARM_JOINT_COUNT : ℕ := 4

def ARM_MAX_EXTENSION : ℝ := 3.0

def ARM_MIN_EXTENSION : ℝ := 0.5

def ARM_ROTATION_SPEED : ℝ := 1.5

def ARM_EXTENSION_SPEED : ℝ := 0.8

structure JointLimit where
  min : ℝ
  max : ℝ

structure ArmJointLimits where
  base : JointLimit
  shoulder : JointLimit
  elbow : JointLimit
  wrist : JointLimit

/-- `ARM_JOINT_LIMITS` (radians). -/
def ARM_JOINT_LIMITS : ArmJointLimits :=
  { base := ⟨-Real.pi * 0.75, Real.pi * 0.75⟩
    shoulder := ⟨-Real.pi * 0.5, Real.pi * 0.25⟩
    elbow := ⟨-Real.pi * 0.75, 0⟩
    wrist := ⟨-Real.pi, Real.pi⟩ }

/-! ## WeldingArmPhysics (src/physics/WeldingArmPhysics.ts) -/

/-- `ArmJointState`: per-joint values (angles in one instance, angular
velocities in the other). -/
structure ArmJointState where
  base : ℝ
  shoulder : ℝ
  elbow : ℝ
  wrist : ℝ

structure ArmState where
  joints : ArmJointState
  jointVelocities : ArmJointState
  extension : ℝ
  extensionVelocity : ℝ
  yawInput : ℝ
  pitchInput : ℝ
  extendInput : ℝ
  rotateInput : ℝ

/-- Damping factor for smooth stops (`DAMPING` field). -/
def DAMPING : ℝ := 5.0

/-- `reset()` / constructor pose: elbow starts slightly bent, extension at the
middle of its range. -/
def armInit : ArmState :=
  { joints := ⟨0, 0, -Real.pi * 0.25, 0⟩
    jointVelocities := ⟨0, 0, 0, 0⟩
    extension := ARM_MIN_EXTENSION + (ARM_MAX_EXTENSION - ARM_MIN_EXTENSION) * 0.5
    extensionVelocity := 0
    yawInput := 0
    pitchInput := 0
    extendInput := 0
    rotateInput := 0 }

/-- `applyInput(yaw, pitch, extend, rotate)` -/
def applyInput (st : ArmState) (yaw pitch extend rotate : ℝ) : ArmState :=
  { st with yawInput := yaw, pitchInput := pitch, extendInput := extend, rotateInput := rotate }

/-- Per-joint target velocities computed from the inputs at the start of
`updateJointVelocities` (fields `base`, `shoulder`, `elbow`, `wrist` and the
extension target). -/
structure ArmTargets where
  base : ℝ
  shoulder : ℝ
  elbow : ℝ
  wrist : ℝ
  ext : ℝ

/-- The target velocities of `updateJointVelocities`:
`targetBaseVel = yawInput * ARM_ROTATION_SPEED`,
`targetShoulderVel = pitchInput * ARM_ROTATION_SPEED * 0.7`,
`targetElbowVel = pitchInput * ARM_ROTATION_SPEED`,
`targetWristVel = rotateInput * ARM_ROTATION_SPEED * 1.5`,
`targetExtVel = extendInput * ARM_EXTENSION_SPEED`. -/
def armTargetVelocities (yaw pitch extend rotate : ℝ) : ArmTargets :=
  { base := yaw * ARM_ROTATION_SPEED
    shoulder := pitch * ARM_ROTATION_SPEED * 0.7
    elbow := pitch * ARM_ROTATION_SPEED
    wrist := rotate * ARM_ROTATION_SPEED * 1.5
    ext := extend * ARM_EXTENSION_SPEED }

/-- `updateJointVelocities(dt)`: exponential damping of the current velocities
toward the targets with `smoothing = 1 - exp(-DAMPING * dt)`. -/
def updateJointVelocities (st : ArmState) (dt : ℝ) : ArmState :=
  let t := armTargetVelocities st.yawInput st.pitchInput st.extendInput st.rotateInput
  let smoothing := 1 - Real.exp (-DAMPING * dt)
  { st with
    jointVelocities :=
      { base := st.jointVelocities.base + (t.base - st.jointVelocities.base) * smoothing
        shoulder :=
          st.jointVelocities.shoulder + (t.shoulder - st.jointVelocities.shoulder) * smoothing
        elbow := st.jointVelocities.elbow + (t.elbow - st.jointVelocities.elbow) * smoothing
        wrist := st.jointVelocities.wrist + (t.wrist - st.jointVelocities.wrist) * smoothing }
    extensionVelocity :=
      st.extensionVelocity + (t.ext - st.extensionVelocity) * smoothing }

/-- `clampJoint(angle, limits)` -/
def clampJoint (angle : ℝ) (limits : JointLimit) : ℝ :=
  clampR angle limits.min limits.max

/-- `integrateJoints(dt)`: integrate each angle, clamp it to its limit, and
zero the velocity of a joint whose clamped angle sits at either bound. -/
def integrateJoints (st : ArmState) (dt : ℝ) : ArmState :=
  let base := clampJoint (st.joints.base + st.jointVelocities.base * dt) ARM_JOINT_LIMITS.base
  let shoulder :=
    clampJoint (st.joints.shoulder + st.jointVelocities.shoulder * dt) ARM_JOINT_LIMITS.shoulder
  let elbow := clampJoint (st.joints.elbow + st.jointVelocities.elbow * dt) ARM_JOINT_LIMITS.elbow
  let wrist := clampJoint (st.joints.wrist + st.jointVelocities.wrist * dt) ARM_JOINT_LIMITS.wrist
  let vBase :=
    if base ≤ ARM_JOINT_LIMITS.base.min ∨ base ≥ ARM_JOINT_LIMITS.base.max then 0
    else st.jointVelocities.base
  let vShoulder :=
    if shoulder ≤ ARM_JOINT_LIMITS.shoulder.min ∨ shoulder ≥ ARM_JOINT_LIMITS.shoulder.max then 0
    else st.jointVelocities.shoulder
  let vElbow :=
    if elbow ≤ ARM_JOINT_LIMITS.elbow.min ∨ elbow ≥ ARM_JOINT_LIMITS.elbow.max then 0
    else st.jointVelocities.elbow
  let vWrist :=
    if wrist ≤ ARM_JOINT_LIMITS.wrist.min ∨ wrist ≥ ARM_JOINT_LIMITS.wrist.max then 0
    else st.jointVelocities.wrist
  { st with
    joints := ⟨base, shoulder, elbow, wrist⟩
    jointVelocities := ⟨vBase, vShoulder, vElbow, vWrist⟩ }

/-- `updateExtension(dt)` -/
def updateExtension (st : ArmState) (dt : ℝ) : ArmState :=
  let extension :=
    clampR (st.extension + st.extensionVelocity * dt) ARM_MIN_EXTENSION ARM_MAX_EXTENSION
  let extensionVelocity :=
    if extension ≤ ARM_MIN_EXTENSION ∨ extension ≥ ARM_MAX_EXTENSION then 0
    else st.extensionVelocity
  { st with extension := extension, extensionVelocity := extensionVelocity }

/-- `update(delta)` -/
def armUpdate (st : ArmState) (delta : ℝ) : ArmState :=
  let dt := min delta 0.1
  let st := updateJointVelocities st dt
  let st := integrateJoints st dt
  let st := updateExtension st dt
  { st with yawInput := 0, pitchInput := 0, extendInput := 0, rotateInput := 0 }

/-- `getJointAngles()`: `[base, shoulder, elbow, wrist]`. -/
def getJointAngles (st : ArmState) : List ℝ :=
  [st.joints.base, st.joints.shoulder, st.joints.elbow, st.joints.wrist]

/-- `getExtension()` -/
def getExtension (st : ArmState) : ℝ := st.extension

/-- `setJointAngles(angles)`: silently ignored unless the array has at least
`ARM_JOINT_COUNT` entries; otherwise each joint is set to its entry clamped to
the joint's limit. -/
def setJointAngles (st : ArmState) (angles : List ℝ) : ArmState :=
  if ARM_JOINT_COUNT ≤ angles.length then
    { st with
      joints :=
        ⟨clampJoint (angles.getD 0 0) ARM_JOINT_LIMITS.base,
         clampJoint (angles.getD 1 0) ARM_JOINT_LIMITS.shoulder,
         clampJoint (angles.getD 2 0) ARM_JOINT_LIMITS.elbow,
         clampJoint (angles.getD 3 0) ARM_JOINT_LIMITS.wrist⟩ }
  else st

/-- One externally invokable `WeldingArmPhysics` call. -/
inductive ArmOp where
  | applyInput (yaw pitch extend rotate : ℝ)
  | update (delta : ℝ)

def armStep (st : ArmState) : ArmOp → ArmState
  | .applyInput y p e r => applyInput st y p e r
  | .update delta => armUpdate st delta

def armRun (st : ArmState) (ops : List ArmOp) : ArmState :=
  ops.foldl armStep st

/-- All `update` calls of a sequence carry a positive time step. -/
def armOpDtPos : ArmOp → Prop
  | .update delta => 0 < delta
  | _ => True

/-- The configured range invariant of the arm: every joint angle inside its
`ARM_JOINT_LIMITS` entry and the extension inside
`[ARM_MIN_EXTENSION, ARM_MAX_EXTENSION]`. -/
def armWithinLimits (st : ArmState) : Prop :=
  ARM_JOINT_LIMITS.base.min ≤ st.joints.base ∧ st.joints.base ≤ ARM_JOINT_LIMITS.base.max ∧
  ARM_JOINT_LIMITS.shoulder.min ≤ st.joints.shoulder ∧
  st.joints.shoulder ≤ ARM_JOINT_LIMITS.shoulder.max ∧
  ARM_JOINT_LIMITS.elbow.min ≤ st.joints.elbow ∧ st.joints.elbow ≤ ARM_JOINT_LIMITS.elbow.max ∧
  ARM_JOINT_LIMITS.wrist.min ≤ st.joints.wrist ∧ st.joints.wrist ≤ ARM_JOINT_LIMITS.wrist.max ∧
  ARM_MIN_EXTENSION ≤ st.extension ∧ st.extension ≤ ARM_MAX_EXTENSION

end

/-! ## Helper lemmas -/

theorem Vec3.len_nonneg (v : Vec3) : 0 ≤ v.len := Real.sqrt_nonneg _

theorem Vec3.len_smul (c : ℝ) (v : Vec3) : (Vec3.smul c v).len = |c| * v.len := by
  unfold Vec3.len Vec3.smul Vec3.normSq
  have h : (c * v.x) ^ 2 + (c * v.y) ^ 2 + (c * v.z) ^ 2 =
      c ^ 2 * (v.x ^ 2 + v.y ^ 2 + v.z ^ 2) := by ring
  simp only at h ⊢
  rw [h, Real.sqrt_mul (sq_nonneg c), Real.sqrt_sq_eq_abs]

theorem clampR_le {lo hi : ℝ} (x : ℝ) (h : lo ≤ hi) : clampR x lo hi ≤ hi :=
  max_le h (min_le_left _ _)

theorem le_clampR {lo hi : ℝ} (x : ℝ) : lo ≤ clampR x lo hi := le_max_left _ _

theorem abs_clampR_le {c : ℝ} (x : ℝ) (hc : 0 ≤ c) : |clampR x (-c) c| ≤ c :=
  abs_le.mpr ⟨le_clampR x, clampR_le x (by linarith)⟩

theorem sq_min_zero_le (y : ℝ) : (min 0 y) ^ 2 ≤ y ^ 2 := by
  rcases le_total y 0 with h | h
  · rw [min_eq_right h]
  · rw [min_eq_left h]
    simpa using sq_nonneg y

theorem sq_max_zero_le (y : ℝ) : (max 0 y) ^ 2 ≤ y ^ 2 := by
  rcases le_total y 0 with h | h
  · rw [max_eq_left h]
    simpa using sq_nonneg y
  · rw [max_eq_right h]

theorem Vec3.len_le_of_sq_le {x z y1 y2 : ℝ} (h : y1 ^ 2 ≤ y2 ^ 2) :
    Vec3.len ⟨x, y1, z⟩ ≤ Vec3.len ⟨x, y2, z⟩ := by
  unfold Vec3.len Vec3.normSq
  apply Real.sqrt_le_sqrt
  simp only
  linarith

theorem integrateVelocity_inv (st : SubState) : subVelInvariant (integrateVelocity st) := by
  have hM : (0 : ℝ) < MAX_SPEED := by norm_num [MAX_SPEED]
  have hR : (0 : ℝ) ≤ MAX_ROTATION_SPEED := by norm_num [MAX_ROTATION_SPEED]
  unfold subVelInvariant integrateVelocity getSpeed
  dsimp only
  refine ⟨?_, abs_clampR_le _ hR, abs_clampR_le _ hR, abs_clampR_le _ hR⟩
  split_ifs with h
  · rw [Vec3.len_smul]
    have hlen : 0 < st.linearVelocity.len := lt_trans hM h
    rw [abs_of_pos (div_pos hM hlen), div_mul_cancel₀ _ (ne_of_gt hlen)]
  · exact le_of_not_lt h

theorem integratePosition_inv (st : SubState) (dt : ℝ) (h : subVelInvariant st) :
    subVelInvariant (integratePosition st dt) := by
  obtain ⟨h1, h2, h3, h4⟩ := h
  unfold getSpeed at h1
  unfold subVelInvariant integratePosition getSpeed
  dsimp only
  split_ifs with ha hb hb
  · refine ⟨?_, h2, h3, h4⟩
    calc (Vec3.mk st.linearVelocity.x (max 0 (min 0 st.linearVelocity.y))
          st.linearVelocity.z).len
        ≤ (Vec3.mk st.linearVelocity.x (min 0 st.linearVelocity.y) st.linearVelocity.z).len :=
          Vec3.len_le_of_sq_le (sq_max_zero_le _)
      _ ≤ (Vec3.mk st.linearVelocity.x st.linearVelocity.y st.linearVelocity.z).len :=
          Vec3.len_le_of_sq_le (sq_min_zero_le _)
      _ ≤ MAX_SPEED := h1
  · refine ⟨?_, h2, h3, h4⟩
    calc (Vec3.mk st.linearVelocity.x (min 0 st.linearVelocity.y) st.linearVelocity.z).len
        ≤ (Vec3.mk st.linearVelocity.x st.linearVelocity.y st.linearVelocity.z).len :=
          Vec3.len_le_of_sq_le (sq_min_zero_le _)
      _ ≤ MAX_SPEED := h1
  · refine ⟨?_, h2, h3, h4⟩
    calc (Vec3.mk st.linearVelocity.x (max 0 st.linearVelocity.y) st.linearVelocity.z).len
        ≤ (Vec3.mk st.linearVelocity.x st.linearVelocity.y st.linearVelocity.z).len :=
          Vec3.len_le_of_sq_le (sq_max_zero_le _)
      _ ≤ MAX_SPEED := h1
  · exact ⟨h1, h2, h3, h4⟩

theorem subUpdate_inv (st : SubState) (delta : ℝ) : subVelInvariant (subUpdate st delta) := by
  unfold subUpdate
  dsimp only
  have h := integratePosition_inv (integrateVelocity (calculateForces st (min delta 0.1)))
    (min delta 0.1) (integrateVelocity_inv _)
  exact h

/-! ## Claim theorems -/

/-- C1: For every sequence of `applyThrust` and `update(dt)` calls with
`dt > 0`, immediately after every `update` the linear velocity magnitude is at
most `MAX_SPEED` (4.0 m/s) and every angular velocity component lies in
`[-MAX_ROTATION_SPEED, MAX_ROTATION_SPEED]` (0.3 rad/s).  Any state reached by
such a sequence has the form `subRun subInit ops`, so the state immediately
after an arbitrary `update` of the sequence is `subUpdate (subRun subInit ops)
delta`. -/
theorem submarine_velocity_clamped (ops : List SubOp) (delta : ℝ)
    (_hops : ∀ op ∈ ops, subOpDtPos op) (_hdelta : 0 < delta) :
    subVelInvariant (subUpdate (subRun subInit ops) delta) :=
  subUpdate_inv _ _

/-- Witness for C1 at a concrete call sequence. -/
theorem submarine_velocity_clamped_witness :
    (∀ op ∈ [SubOp.applyThrust 2 0 0 0, SubOp.update 1], subOpDtPos op) ∧ (0 : ℝ) < 1 ∧
      subVelInvariant (subUpdate (subRun subInit [SubOp.applyThrust 2 0 0 0, SubOp.update 1]) 1) :=
  ⟨by simp [subOpDtPos], zero_lt_one,
   submarine_velocity_clamped [SubOp.applyThrust 2 0 0 0, SubOp.update 1] 1
     (by simp [subOpDtPos]) zero_lt_one⟩

theorem clampJoint_mem (a : ℝ) {l : JointLimit} (h : l.min ≤ l.max) :
    l.min ≤ clampJoint a l ∧ clampJoint a l ≤ l.max :=
  ⟨le_clampR a, clampR_le a h⟩

theorem armUpdate_within (st : ArmState) (delta : ℝ) : armWithinLimits (armUpdate st delta) := by
  have hpi := Real.pi_pos
  have hb : ARM_JOINT_LIMITS.base.min ≤ ARM_JOINT_LIMITS.base.max := by
    simp only [ARM_JOINT_LIMITS]
    linarith
  have hs : ARM_JOINT_LIMITS.shoulder.min ≤ ARM_JOINT_LIMITS.shoulder.max := by
    simp only [ARM_JOINT_LIMITS]
    linarith
  have he : ARM_JOINT_LIMITS.elbow.min ≤ ARM_JOINT_LIMITS.elbow.max := by
    simp only [ARM_JOINT_LIMITS]
    linarith
  have hw : ARM_JOINT_LIMITS.wrist.min ≤ ARM_JOINT_LIMITS.wrist.max := by
    simp only [ARM_JOINT_LIMITS]
    linarith
  unfold armWithinLimits armUpdate updateExtension integrateJoints
  dsimp only
  exact ⟨(clampJoint_mem _ hb).1, (clampJoint_mem _ hb).2,
    (clampJoint_mem _ hs).1, (clampJoint_mem _ hs).2,
    (clampJoint_mem _ he).1, (clampJoint_mem _ he).2,
    (clampJoint_mem _ hw).1, (clampJoint_mem _ hw).2,
    le_clampR _, clampR_le _ (by norm_num [ARM_MIN_EXTENSION, ARM_MAX_EXTENSION])⟩

/-- C2: For every sequence of `applyInput` and `update(dt)` calls with
`dt > 0`, after every `update` each of the four joint angles lies within its
`ARM_JOINT_LIMITS` range and the extension lies within
`[ARM_MIN_EXTENSION, ARM_MAX_EXTENSION]`.  Any reachable state is
`armRun armInit ops`, so the state immediately after an arbitrary `update` is
`armUpdate (armRun armInit ops) delta`. -/
theorem arm_joints_within_limits (ops : List ArmOp) (delta : ℝ)
    (_hops : ∀ op ∈ ops, armOpDtPos op) (_hdelta : 0 < delta) :
    armWithinLimits (armUpdate (armRun armInit ops) delta) :=
  armUpdate_within _ _

/-- Witness for C2 at a concrete call sequence. -/
theorem arm_joints_within_limits_witness :
    (∀ op ∈ [ArmOp.applyInput 1 (-1) 1 (-1), ArmOp.update 1], armOpDtPos op) ∧ (0 : ℝ) < 1 ∧
      armWithinLimits (armUpdate (armRun armInit [ArmOp.applyInput 1 (-1) 1 (-1), ArmOp.update 1]) 1) :=
  ⟨by simp [armOpDtPos], zero_lt_one,
   arm_joints_within_limits [ArmOp.applyInput 1 (-1) 1 (-1), ArmOp.update 1] 1
     (by simp [armOpDtPos]) zero_lt_one⟩

/-- C3: `finishWeld()` called in the Welding state with at most one
accumulated sample returns the fixed short-weld result: overall score `0`,
rating `F`, all five sub-scores `0`, no defects, feedback beginning
`"Weld too short"`, and the system leaves the Welding state (returns to
Idle). -/
theorem finishWeld_short (st : WeldingState) (h1 : st.welding = true)
    (h2 : st.samples.length ≤ 1) :
    (finishWeld st).1.overallScore = 0 ∧ (finishWeld st).1.rating = Rating.F ∧
    (finishWeld st).1.speedScore = 0 ∧ (finishWeld st).1.angleScore = 0 ∧
    (finishWeld st).1.arcScore = 0 ∧ (finishWeld st).1.accuracyScore = 0 ∧
    (finishWeld st).1.consistencyScore = 0 ∧ (finishWeld st).1.defects = [] ∧
    ("Weld too short".data.isPrefixOf ((finishWeld st).1.feedback.headD "").data) = true ∧
    (finishWeld st).2.welding = false := by
  have hlt : st.samples.length < 2 := by omega
  simp only [finishWeld, h1, Bool.true_eq_false, if_false, analyzeWeldQuality, if_pos hlt,
    shortWeldResult]
  decide

/-- Witness for C3: a Welding state holding exactly one sample. -/
theorem finishWeld_short_witness :
    (⟨true, [⟨⟨0, 0, 0⟩, 0, 0, 0, 0, 0, 0⟩], [], 0⟩ : WeldingState).welding = true ∧
    (⟨true, [⟨⟨0, 0, 0⟩, 0, 0, 0, 0, 0, 0⟩], [], 0⟩ : WeldingState).samples.length ≤ 1 ∧
    ((finishWeld ⟨true, [⟨⟨0, 0, 0⟩, 0, 0, 0, 0, 0, 0⟩], [], 0⟩).1.overallScore = 0 ∧
      (finishWeld ⟨true, [⟨⟨0, 0, 0⟩, 0, 0, 0, 0, 0, 0⟩], [], 0⟩).1.rating = Rating.F ∧
      (finishWeld ⟨true, [⟨⟨0, 0, 0⟩, 0, 0, 0, 0, 0, 0⟩], [], 0⟩).1.speedScore = 0 ∧
      (finishWeld ⟨true, [⟨⟨0, 0, 0⟩, 0, 0, 0, 0, 0, 0⟩], [], 0⟩).1.angleScore = 0 ∧
      (finishWeld ⟨true, [⟨⟨0, 0, 0⟩, 0, 0, 0, 0, 0, 0⟩], [], 0⟩).1.arcScore = 0 ∧
      (finishWeld ⟨true, [⟨⟨0, 0, 0⟩, 0, 0, 0, 0, 0, 0⟩], [], 0⟩).1.accuracyScore = 0 ∧
      (finishWeld ⟨true, [⟨⟨0, 0, 0⟩, 0, 0, 0, 0, 0, 0⟩], [], 0⟩).1.consistencyScore = 0 ∧
      (finishWeld ⟨true, [⟨⟨0, 0, 0⟩, 0, 0, 0, 0, 0, 0⟩], [], 0⟩).1.defects = [] ∧
      ("Weld too short".data.isPrefixOf
        ((finishWeld ⟨true, [⟨⟨0, 0, 0⟩, 0, 0, 0, 0, 0, 0⟩], [], 0⟩).1.feedback.headD "").data) = true ∧
      (finishWeld ⟨true, [⟨⟨0, 0, 0⟩, 0, 0, 0, 0, 0, 0⟩], [], 0⟩).2.welding = false) :=
  ⟨rfl, by decide, finishWeld_short ⟨true, [⟨⟨0, 0, 0⟩, 0, 0, 0, 0, 0, 0⟩], [], 0⟩ rfl (by decide)⟩

/-- C4 counterexample: at pitch input `1` the target velocities computed by
`updateJointVelocities` are shoulder `= 0.7 · ARM_ROTATION_SPEED` and elbow
`= 1.0 · ARM_ROTATION_SPEED` — not the claimed `+0.5 · pitch` / `−0.5 · pitch`
split, and the elbow target does not have the opposite sign of the shoulder
target. -/
theorem arm_pitch_mapping_counterexample :
    (armTargetVelocities 0 1 0 0).shoulder ≠ 0.5 * 1 * ARM_ROTATION_SPEED ∧
    (armTargetVelocities 0 1 0 0).elbow ≠ -0.5 * 1 * ARM_ROTATION_SPEED ∧
    (armTargetVelocities 0 1 0 0).elbow ≠ -(armTargetVelocities 0 1 0 0).shoulder := by
  refine ⟨?_, ?_, ?_⟩ <;> norm_num [armTargetVelocities, ARM_ROTATION_SPEED]

/-- C4 (amended): `applyInput` followed by `updateJointVelocities(dt)` drives
each joint velocity toward a target of base `= yaw · ARM_ROTATION_SPEED`,
shoulder `= pitch · ARM_ROTATION_SPEED · 0.7`, elbow
`= pitch · ARM_ROTATION_SPEED` (same sign as the shoulder), wrist
`= rotate · ARM_ROTATION_SPEED · 1.5` and extension
`= extend · ARM_EXTENSION_SPEED`, with exponential smoothing
`1 − e^(−DAMPING·dt)`. -/
theorem arm_input_velocity_mapping (st : ArmState) (yaw pitch extend rotate dt : ℝ) :
    ((updateJointVelocities (applyInput st yaw pitch extend rotate) dt).jointVelocities.base =
      st.jointVelocities.base + (yaw * ARM_ROTATION_SPEED - st.jointVelocities.base) *
        (1 - Real.exp (-DAMPING * dt))) ∧
    ((updateJointVelocities (applyInput st yaw pitch extend rotate) dt).jointVelocities.shoulder =
      st.jointVelocities.shoulder +
        (pitch * ARM_ROTATION_SPEED * 0.7 - st.jointVelocities.shoulder) *
          (1 - Real.exp (-DAMPING * dt))) ∧
    ((updateJointVelocities (applyInput st yaw pitch extend rotate) dt).jointVelocities.elbow =
      st.jointVelocities.elbow + (pitch * ARM_ROTATION_SPEED - st.jointVelocities.elbow) *
        (1 - Real.exp (-DAMPING * dt))) ∧
    ((updateJointVelocities (applyInput st yaw pitch extend rotate) dt).jointVelocities.wrist =
      st.jointVelocities.wrist +
        (rotate * ARM_ROTATION_SPEED * 1.5 - st.jointVelocities.wrist) *
          (1 - Real.exp (-DAMPING * dt))) ∧
    ((updateJointVelocities (applyInput st yaw pitch extend rotate) dt).extensionVelocity =
      st.extensionVelocity + (extend * ARM_EXTENSION_SPEED - st.extensionVelocity) *
        (1 - Real.exp (-DAMPING * dt))) :=
  ⟨rfl, rfl, rfl, rfl, rfl⟩

/-- C5 counterexample: `applyThrust(2, 0, 0, 0)` stores `-2` as the forward
component of the command vector, a value outside `[-1, 1]`, so inputs are not
clamped before being stored. -/
theorem applyThrust_clamp_counterexample :
    (applyThrust subInit 2 0 0 0).thrustInput.z = -2 ∧
    ¬ (-1 ≤ (applyThrust subInit 2 0 0 0).thrustInput.z ∧
        (applyThrust subInit 2 0 0 0).thrustInput.z ≤ 1) := by
  refine ⟨rfl, ?_⟩
  rw [show (applyThrust subInit 2 0 0 0).thrustInput.z = -2 from rfl]
  norm_num

/-- C5 (amended): `applyThrust` is total (never rejects) and stores its
arguments unmodified — `thrustInput = (strafe, vertical, −forward)` and
`rollInput = roll` — without clamping; out-of-range values are stored as-is
(and the stored command is what `update`'s force computation consumes), and no
other physics field changes. -/
theorem applyThrust_stores_raw (st : SubState) (forward strafe vertical roll : ℝ) :
    (applyThrust st forward strafe vertical roll).thrustInput.x = strafe ∧
    (applyThrust st forward strafe vertical roll).thrustInput.y = vertical ∧
    (applyThrust st forward strafe vertical roll).thrustInput.z = -forward ∧
    (applyThrust st forward strafe vertical roll).rollInput = roll ∧
    (applyThrust st forward strafe vertical roll).position = st.position ∧
    (applyThrust st forward strafe vertical roll).quaternion = st.quaternion ∧
    (applyThrust st forward strafe vertical roll).linearVelocity = st.linearVelocity ∧
    (applyThrust st forward strafe vertical roll).angularVelocity = st.angularVelocity :=
  ⟨rfl, rfl, rfl, rfl, rfl, rfl, rfl, rfl⟩

theorem getRating_eq_S_iff (s : ℚ) : getRating s = Rating.S ↔ 95 ≤ s := by
  unfold getRating SCORE_RATING_THRESHOLDS
  dsimp only
  split_ifs with h1 h2 h3 h4 h5 <;> simp <;> first | assumption | linarith

theorem getRating_eq_A_iff (s : ℚ) : getRating s = Rating.A ↔ 85 ≤ s ∧ s < 95 := by
  unfold getRating SCORE_RATING_THRESHOLDS
  dsimp only
  split_ifs with h1 h2 h3 h4 h5 <;> simp <;>
    first | (constructor <;> linarith) | (intros; linarith)

theorem getRating_eq_B_iff (s : ℚ) : getRating s = Rating.B ↔ 70 ≤ s ∧ s < 85 := by
  unfold getRating SCORE_RATING_THRESHOLDS
  dsimp only
  split_ifs with h1 h2 h3 h4 h5 <;> simp <;>
    first | (constructor <;> linarith) | (intros; linarith)

theorem getRating_eq_C_iff (s : ℚ) : getRating s = Rating.C ↔ 55 ≤ s ∧ s < 70 := by
  unfold getRating SCORE_RATING_THRESHOLDS
  dsimp only
  split_ifs with h1 h2 h3 h4 h5 <;> simp <;>
    first | (constructor <;> linarith) | (intros; linarith)

theorem getRating_eq_D_iff (s : ℚ) : getRating s = Rating.D ↔ 40 ≤ s ∧ s < 55 := by
  unfold getRating SCORE_RATING_THRESHOLDS
  dsimp only
  split_ifs with h1 h2 h3 h4 h5 <;> simp <;>
    first | (constructor <;> linarith) | (intros; linarith)

theorem getRating_eq_F_iff (s : ℚ) : getRating s = Rating.F ↔ s < 40 := by
  unfold getRating SCORE_RATING_THRESHOLDS
  dsimp only
  split_ifs with h1 h2 h3 h4 h5 <;> simp <;> first | assumption | linarith

theorem ratingRank_getRating_mono {s t : ℚ} (hst : s ≤ t) :
    ratingRank (getRating s) ≤ ratingRank (getRating t) := by
  unfold getRating SCORE_RATING_THRESHOLDS
  dsimp only
  split_ifs <;> simp [ratingRank] <;> first | omega | (exfalso; linarith)

/-- C6: the rating table is exhaustive and monotone: `getRating` maps
`≥ 95 ↦ S`, `[85, 95) ↦ A`, `[70, 85) ↦ B`, `[55, 70) ↦ C`, `[40, 55) ↦ D`
and `< 40 ↦ F` (so every score, in particular every score in `[0, 100]`,
gets exactly one rating), and the rating is non-decreasing in the score. -/
theorem rating_table_monotone_exhaustive (s t : ℚ) (hst : s ≤ t) :
    ratingRank (getRating s) ≤ ratingRank (getRating t) ∧
    (getRating s = Rating.S ↔ 95 ≤ s) ∧
    (getRating s = Rating.A ↔ 85 ≤ s ∧ s < 95) ∧
    (getRating s = Rating.B ↔ 70 ≤ s ∧ s < 85) ∧
    (getRating s = Rating.C ↔ 55 ≤ s ∧ s < 70) ∧
    (getRating s = Rating.D ↔ 40 ≤ s ∧ s < 55) ∧
    (getRating s = Rating.F ↔ s < 40) :=
  ⟨ratingRank_getRating_mono hst, getRating_eq_S_iff s, getRating_eq_A_iff s,
   getRating_eq_B_iff s, getRating_eq_C_iff s, getRating_eq_D_iff s, getRating_eq_F_iff s⟩

/-- Witness for C6 at the concrete pair of scores `50 ≤ 80`. -/
theorem rating_table_monotone_exhaustive_witness :
    (50 : ℚ) ≤ 80 ∧
    (ratingRank (getRating 50) ≤ ratingRank (getRating 80) ∧
      (getRating 50 = Rating.S ↔ 95 ≤ (50 : ℚ)) ∧
      (getRating 50 = Rating.A ↔ 85 ≤ (50 : ℚ) ∧ (50 : ℚ) < 95) ∧
      (getRating 50 = Rating.B ↔ 70 ≤ (50 : ℚ) ∧ (50 : ℚ) < 85) ∧
      (getRating 50 = Rating.C ↔ 55 ≤ (50 : ℚ) ∧ (50 : ℚ) < 70) ∧
      (getRating 50 = Rating.D ↔ 40 ≤ (50 : ℚ) ∧ (50 : ℚ) < 55) ∧
      (getRating 50 = Rating.F ↔ (50 : ℚ) < 40)) :=
  ⟨by decide, rating_table_monotone_exhaustive 50 80 (by decide)⟩

theorem updateMultiplier_eq_S (st : ScoreState) :
    (updateMultiplier st Rating.S).multiplier =
      min (st.multiplier + SCORE_MULTIPLIER_INCREMENT * 2) SCORE_MAX_MULTIPLIER := by
  simp [updateMultiplier]

theorem updateMultiplier_eq_A (st : ScoreState) :
    (updateMultiplier st Rating.A).multiplier =
      min (st.multiplier + SCORE_MULTIPLIER_INCREMENT * 1.5) SCORE_MAX_MULTIPLIER := by
  simp [updateMultiplier]

theorem updateMultiplier_eq_B (st : ScoreState) :
    (updateMultiplier st Rating.B).multiplier =
      min (st.multiplier + SCORE_MULTIPLIER_INCREMENT) SCORE_MAX_MULTIPLIER := by
  simp [updateMultiplier]

theorem updateMultiplier_eq_C (st : ScoreState) :
    (updateMultiplier st Rating.C).multiplier = st.multiplier := by
  simp [updateMultiplier]

theorem updateMultiplier_eq_D (st : ScoreState) :
    (updateMultiplier st Rating.D).multiplier =
      max 1 (st.multiplier - SCORE_MULTIPLIER_INCREMENT) := by
  simp [updateMultiplier]

theorem updateMultiplier_eq_F (st : ScoreState) :
    (updateMultiplier st Rating.F).multiplier =
      max 1 (st.multiplier - SCORE_MULTIPLIER_INCREMENT) := by
  simp [updateMultiplier]

theorem updateMultiplier_bounds (st : ScoreState) (r : Rating)
    (h1 : 1 ≤ st.multiplier) (h2 : st.multiplier ≤ SCORE_MAX_MULTIPLIER) :
    1 ≤ (updateMultiplier st r).multiplier ∧
      (updateMultiplier st r).multiplier ≤ SCORE_MAX_MULTIPLIER := by
  have hM : (1 : ℚ) ≤ SCORE_MAX_MULTIPLIER := by norm_num [SCORE_MAX_MULTIPLIER]
  have hI : (0 : ℚ) < SCORE_MULTIPLIER_INCREMENT := by norm_num [SCORE_MULTIPLIER_INCREMENT]
  cases r
  case S =>
    rw [updateMultiplier_eq_S]
    exact ⟨le_min (by linarith) hM, min_le_right _ _⟩
  case A =>
    rw [updateMultiplier_eq_A]
    refine ⟨le_min (by nlinarith) hM, min_le_right _ _⟩
  case B =>
    rw [updateMultiplier_eq_B]
    exact ⟨le_min (by linarith) hM, min_le_right _ _⟩
  case C =>
    rw [updateMultiplier_eq_C]
    exact ⟨h1, h2⟩
  case D =>
    rw [updateMultiplier_eq_D]
    exact ⟨le_max_left _ _, max_le hM (by linarith)⟩
  case F =>
    rw [updateMultiplier_eq_F]
    exact ⟨le_max_left _ _, max_le hM (by linarith)⟩

theorem scoreUpdate_bounds (st : ScoreState) (delta : ℚ) (hd : 0 ≤ delta)
    (h1 : 1 ≤ st.multiplier) (h2 : st.multiplier ≤ SCORE_MAX_MULTIPLIER) :
    1 ≤ (scoreUpdate st delta).multiplier ∧
      (scoreUpdate st delta).multiplier ≤ SCORE_MAX_MULTIPLIER := by
  have hM : (1 : ℚ) ≤ SCORE_MAX_MULTIPLIER := by norm_num [SCORE_MAX_MULTIPLIER]
  have hD : (0 : ℚ) ≤ SCORE_MULTIPLIER_DECAY * delta := by
    have h : (0 : ℚ) ≤ SCORE_MULTIPLIER_DECAY := by norm_num [SCORE_MULTIPLIER_DECAY]
    positivity
  unfold scoreUpdate
  dsimp only
  split_ifs with hc hm
  · exact ⟨h1, h2⟩
  · exact ⟨le_refl 1, hM⟩
  · refine ⟨le_of_not_lt hm, ?_⟩
    show st.multiplier - SCORE_MULTIPLIER_DECAY * delta ≤ SCORE_MAX_MULTIPLIER
    linarith

theorem scoreStep_bounds (st : ScoreState) (op : ScoreOp) (hop : scoreOpOk op)
    (h1 : 1 ≤ st.multiplier) (h2 : st.multiplier ≤ SCORE_MAX_MULTIPLIER) :
    1 ≤ (scoreStep st op).multiplier ∧ (scoreStep st op).multiplier ≤ SCORE_MAX_MULTIPLIER := by
  cases op with
  | processWeld result =>
    exact updateMultiplier_bounds st result.rating h1 h2
  | update delta => exact scoreUpdate_bounds st delta hop h1 h2
  | reset => exact ⟨le_refl 1, by norm_num [scoreStep, scoreReset, SCORE_MAX_MULTIPLIER]⟩

theorem scoreRun_bounds (ops : List ScoreOp) (st : ScoreState)
    (hops : ∀ op ∈ ops, scoreOpOk op)
    (h1 : 1 ≤ st.multiplier) (h2 : st.multiplier ≤ SCORE_MAX_MULTIPLIER) :
    1 ≤ (scoreRun st ops).multiplier ∧ (scoreRun st ops).multiplier ≤ SCORE_MAX_MULTIPLIER := by
  induction ops generalizing st with
  | nil => exact ⟨h1, h2⟩
  | cons op rest ih =>
    have hstep := scoreStep_bounds st op (hops op (by simp)) h1 h2
    exact ih (scoreStep st op) (fun o ho => hops o (by simp [ho])) hstep.1 hstep.2

/-- C7: starting from `multiplier = 1`, after every sequence of
`processWeld`, `update(dt)` (with `dt ≥ 0`) and `reset` calls the multiplier
stays within `[1, SCORE_MAX_MULTIPLIER]` — in particular repeated `'S'`-rated
welds never push it above the maximum; moreover `processWeld`'s multiplier
update raises it by `SCORE_MULTIPLIER_INCREMENT × {2, 1.5, 1}` for `S`/`A`/`B`
capped at the maximum, lowers it by the increment floored at `1` for `D`/`F`,
leaves it unchanged for `C`, and combo decay clamps it at `1`. -/
theorem multiplier_bounded (ops : List ScoreOp) (hops : ∀ op ∈ ops, scoreOpOk op) :
    (1 ≤ (scoreRun scoreInit ops).multiplier ∧
      (scoreRun scoreInit ops).multiplier ≤ SCORE_MAX_MULTIPLIER) ∧
    (∀ st : ScoreState,
      (updateMultiplier st Rating.S).multiplier =
        min (st.multiplier + SCORE_MULTIPLIER_INCREMENT * 2) SCORE_MAX_MULTIPLIER ∧
      (updateMultiplier st Rating.A).multiplier =
        min (st.multiplier + SCORE_MULTIPLIER_INCREMENT * 1.5) SCORE_MAX_MULTIPLIER ∧
      (updateMultiplier st Rating.B).multiplier =
        min (st.multiplier + SCORE_MULTIPLIER_INCREMENT) SCORE_MAX_MULTIPLIER ∧
      (updateMultiplier st Rating.C).multiplier = st.multiplier ∧
      (updateMultiplier st Rating.D).multiplier =
        max 1 (st.multiplier - SCORE_MULTIPLIER_INCREMENT) ∧
      (updateMultiplier st Rating.F).multiplier =
        max 1 (st.multiplier - SCORE_MULTIPLIER_INCREMENT)) ∧
    (∀ (st : ScoreState) (delta : ℚ), st.comboActive = true →
      (scoreUpdate st delta).multiplier =
        max 1 (st.multiplier - SCORE_MULTIPLIER_DECAY * delta)) := by
  refine ⟨scoreRun_bounds ops scoreInit hops (le_refl 1)
    (by norm_num [scoreInit, SCORE_MAX_MULTIPLIER]), ?_, ?_⟩
  · exact fun st => ⟨updateMultiplier_eq_S st, updateMultiplier_eq_A st,
      updateMultiplier_eq_B st, updateMultiplier_eq_C st, updateMultiplier_eq_D st,
      updateMultiplier_eq_F st⟩
  · intro st delta hc
    unfold scoreUpdate
    simp only [hc, Bool.true_eq_false, if_false]
    split_ifs with hm
    · exact (max_eq_left (le_of_lt hm)).symm
    · exact (max_eq_right (le_of_not_lt hm)).symm

/-- Witness for C7 at a concrete call sequence. -/
theorem multiplier_bounded_witness :
    (∀ op ∈ [ScoreOp.processWeld shortWeldResult, ScoreOp.update 1, ScoreOp.reset],
      scoreOpOk op) ∧
    (1 ≤ (scoreRun scoreInit
        [ScoreOp.processWeld shortWeldResult, ScoreOp.update 1, ScoreOp.reset]).multiplier ∧
      (scoreRun scoreInit
        [ScoreOp.processWeld shortWeldResult, ScoreOp.update 1,
          ScoreOp.reset]).multiplier ≤ SCORE_MAX_MULTIPLIER) :=
  ⟨by simp [scoreOpOk], (multiplier_bounded
    [ScoreOp.processWeld shortWeldResult, ScoreOp.update 1, ScoreOp.reset]
    (by simp [scoreOpOk])).1⟩

/-- C8: `processWeld` awards
`round(SCORE_BASE_POINTS · (overallScore/100) · ratingBonus · multiplier)`
points, where `ratingBonus` is the `{S: 2.0, A: 1.5, B: 1.2, C: 1.0, D: 0.8,
F: 0.5}` table and `multiplier` is the value held before this call updates
it. -/
theorem processWeld_points (st : ScoreState) (result : WeldQualityResult) :
    (processWeld st result).1 =
      round (SCORE_BASE_POINTS * ((result.overallScore : ℚ) / 100) *
        getRatingBonus result.rating * st.multiplier) :=
  rfl

/-- C9: `analyzeWeldQuality` is deterministic and pure — it is embedded as a
pure function of the sample list alone (the source reads only its argument and
module constants, no clock, randomness or mutable state), so equal input
sample lists yield identical results in every field, and the input list is
never modified. -/
theorem analyzeWeldQuality_deterministic (s1 s2 : List WeldSample) (h : s1 = s2) :
    analyzeWeldQuality s1 = analyzeWeldQuality s2 := by
  rw [h]

/-- Witness for C9 at a concrete two-sample list. -/
theorem analyzeWeldQuality_deterministic_witness :
    ([⟨⟨0, 0, 0⟩, 0.15, 90, 15, 3, 0, 0⟩, ⟨⟨0, 0, 1⟩, 0.15, 90, 15, 3, 0, 16⟩] :
        List WeldSample) =
      [⟨⟨0, 0, 0⟩, 0.15, 90, 15, 3, 0, 0⟩, ⟨⟨0, 0, 1⟩, 0.15, 90, 15, 3, 0, 16⟩] ∧
    analyzeWeldQuality [⟨⟨0, 0, 0⟩, 0.15, 90, 15, 3, 0, 0⟩, ⟨⟨0, 0, 1⟩, 0.15, 90, 15, 3, 0, 16⟩] =
      analyzeWeldQuality
        [⟨⟨0, 0, 0⟩, 0.15, 90, 15, 3, 0, 0⟩, ⟨⟨0, 0, 1⟩, 0.15, 90, 15, 3, 0, 16⟩] :=
  ⟨rfl, analyzeWeldQuality_deterministic
    [⟨⟨0, 0, 0⟩, 0.15, 90, 15, 3, 0, 0⟩, ⟨⟨0, 0, 1⟩, 0.15, 90, 15, 3, 0, 16⟩]
    [⟨⟨0, 0, 0⟩, 0.15, 90, 15, 3, 0, 0⟩, ⟨⟨0, 0, 1⟩, 0.15, 90, 15, 3, 0, 16⟩] rfl⟩

/-- C10: `setJointAngles(angles)` with fewer than `ARM_JOINT_COUNT` (4)
entries is a silent no-op (the whole state, in particular every joint angle,
is unchanged); with at least 4 entries each joint angle is set to the
corresponding entry clamped to that joint's configured limit. -/
theorem setJointAngles_spec (st : ArmState) (angles : List ℝ) :
    (angles.length < ARM_JOINT_COUNT → setJointAngles st angles = st) ∧
    (ARM_JOINT_COUNT ≤ angles.length →
      getJointAngles (setJointAngles st angles) =
        [clampJoint (angles.getD 0 0) ARM_JOINT_LIMITS.base,
         clampJoint (angles.getD 1 0) ARM_JOINT_LIMITS.shoulder,
         clampJoint (angles.getD 2 0) ARM_JOINT_LIMITS.elbow,
         clampJoint (angles.getD 3 0) ARM_JOINT_LIMITS.wrist]) := by
  constructor
  · intro h
    unfold setJointAngles
    rw [if_neg (by omega)]
  · intro h
    unfold setJointAngles getJointAngles
    rw [if_pos h]

/-- Witness for C10: a three-entry call is ignored, a five-entry call sets
the clamped angles. -/
theorem setJointAngles_spec_witness :
    (([10, 10, 10] : List ℝ).length < ARM_JOINT_COUNT ∧
      setJointAngles armInit [10, 10, 10] = armInit) ∧
    (ARM_JOINT_COUNT ≤ ([10, -10, 10, -10, 10] : List ℝ).length ∧
      getJointAngles (setJointAngles armInit [10, -10, 10, -10, 10]) =
        [clampJoint (([10, -10, 10, -10, 10] : List ℝ).getD 0 0) ARM_JOINT_LIMITS.base,
         clampJoint (([10, -10, 10, -10, 10] : List ℝ).getD 1 0) ARM_JOINT_LIMITS.shoulder,
         clampJoint (([10, -10, 10, -10, 10] : List ℝ).getD 2 0) ARM_JOINT_LIMITS.elbow,
         clampJoint (([10, -10, 10, -10, 10] : List ℝ).getD 3 0) ARM_JOINT_LIMITS.wrist]) :=
  ⟨⟨by simp [ARM_JOINT_COUNT], (setJointAngles_spec armInit [10, 10, 10]).1
      (by simp [ARM_JOINT_COUNT])⟩,
   ⟨by simp [ARM_JOINT_COUNT], (setJointAngles_spec armInit [10, -10, 10, -10, 10]).2
      (by simp [ARM_JOINT_COUNT])⟩⟩

end SubWeld
